import Mathlib

/-!
Verification of the task persistence and CRUD core of the Todo-app
repository (Express server under `server/`).

The embedding models, from the source:
  * `server/controllers/taskController.js` — the four request handlers
    `getAllTasks`, `createTask`, `updateTask`, `deleteTask`;
  * `server/utils/storage.js` — `readData` / `writeData` over the single
    JSON backing file;
  * `server/routes/tasks.js` — the routes mount the bare controllers
    (`router.post("/tasks", createTask)` etc.), with no validation
    middleware in the chain, so the endpoint behavior coincides with the
    controller functions.

JavaScript numbers are modelled as `Int` (all ids and `nextId` are
integral); `parseInt` returning `NaN` is modelled as `none`; request
bodies model `undefined` fields as `none` and dynamically typed fields
with an explicit `JsVal` tag.  File I/O is modelled as a pure state:
the controllers are functions from the loaded document to a result
carrying the HTTP status, the JSON response payload, the document that
is persisted, and whether `writeData` was invoked at all.
-/

namespace TodoApp

/-- A task record `{id, title, completed}` as stored in `data.json`
(`server/utils/storage.js` typedef `Task`). -/
structure Task where
  id : Int
  title : String
  completed : Bool
deriving DecidableEq

/-- The persisted document `{tasks, nextId}`
(`server/utils/storage.js` typedef `DataStore`). -/
structure Document where
  tasks : List Task
  nextId : Int
deriving DecidableEq

/-- A dynamically typed JavaScript value, as far as the handlers
inspect one (`typeof completed !== "boolean"` in `createTask`). -/
inductive JsVal where
  | undef
  | bool (b : Bool)
  | str (s : String)
  | num (n : Int)
deriving DecidableEq

/-- `typeof v === "boolean"`. -/
def JsVal.isBool : JsVal → Bool
  | .bool _ => true
  | _ => false

/-- Body of a POST `/api/tasks` request as read by `createTask`:
`const { title, completed } = req.body`.  `title` is `none` when the
field is absent (`undefined`); `completed` keeps its dynamic tag since
the handler checks `typeof completed !== "boolean"`. -/
structure CreateBody where
  title : Option String
  completed : JsVal
deriving DecidableEq

/-- Body of a PUT `/api/tasks/:id` request as read by `updateTask`.
The raw JSON body may carry more keys (for example an `id`); the
handler destructures only `title` and `completed`, so an extra `id`
key is carried here and never read by `updateTask`. -/
structure UpdateBody where
  title : Option String
  completed : Option Bool
  id : Option Int
deriving DecidableEq

/-- The JSON payload passed to `res.json(...)` by a handler. -/
inductive ResBody where
  | tasksList (ts : List Task)
  | task (t : Task)
  | message (s : String)
  | error (s : String)
deriving DecidableEq

/-- Outcome of one handler call: HTTP status, response payload, the
document state after the call (identical to the input when nothing was
written) and whether `writeData` was called. -/
structure HandlerResult where
  status : Nat
  body : ResBody
  doc : Document
  wrote : Bool
deriving DecidableEq

/-- JavaScript string truthiness restricted to an optional string
field: `!title` holds exactly for `undefined` and the empty string. -/
def titleFalsy : Option String → Bool
  | none => true
  | some s => s = ""

/-- Strict equality `taskId === parsedId` where the right-hand side is
the result of `parseInt` (`none` models `NaN`; `NaN === x` is false for
every `x`). -/
def jsStrictEqNum (taskId : Int) (parsed : Option Int) : Bool :=
  match parsed with
  | none => false
  | some n => taskId == n

/-- `Array.prototype.findIndex`: index of the first element satisfying
the predicate; `none` models the JS return value `-1`. -/
def jsFindIndex (p : α → Bool) : List α → Option Nat
  | [] => none
  | a :: l => if p a then some 0 else (jsFindIndex p l).map (· + 1)

/-- One JavaScript whitespace character (the ASCII fragment used by
`parseInt` to skip leading space; Unicode spaces are not needed for
route parameters). -/
def isJsSpace (c : Char) : Bool :=
  c = ' ' || c = '\t' || c = '\n' || c = '\r' || c = Char.ofNat 11 || c = Char.ofNat 12

/-- Value of one digit in the given base, `none` when the character is
not a digit of that base. -/
def digitVal? (base : Nat) (c : Char) : Option Nat :=
  let v : Option Nat :=
    if '0' ≤ c ∧ c ≤ '9' then some (c.toNat - '0'.toNat)
    else if 'a' ≤ c ∧ c ≤ 'f' then some (c.toNat - 'a'.toNat + 10)
    else if 'A' ≤ c ∧ c ≤ 'F' then some (c.toNat - 'A'.toNat + 10)
    else none
  match v with
  | some n => if n < base then some n else none
  | none => none

/-- Accumulate the longest leading run of digits of the base; returns
the value so far and whether at least one digit was consumed. -/
def takeDigits (base : Nat) : List Char → Nat → Bool → Nat × Bool
  | [], acc, seen => (acc, seen)
  | c :: rest, acc, seen =>
    match digitVal? base c with
    | some d => takeDigits base rest (acc * base + d) true
    | none => (acc, seen)

/-- `parseInt(s)` with the default radix: skip leading whitespace, read
an optional sign, detect a `0x`/`0X` prefix, then consume the longest
leading digit run; `none` models `NaN` (no digits at all). -/
def parseIntJs (s : String) : Option Int :=
  let cs := s.toList.dropWhile isJsSpace
  let (sign, cs) : Int × List Char :=
    match cs with
    | '-' :: r => (-1, r)
    | '+' :: r => (1, r)
    | _ => (1, cs)
  let (base, cs) : Nat × List Char :=
    match cs with
    | '0' :: 'x' :: r => (16, r)
    | '0' :: 'X' :: r => (16, r)
    | _ => (10, cs)
  match takeDigits base cs 0 false with
  | (_, false) => none
  | (n, true) => some (sign * (n : Int))

/-- The empty document `{tasks: [], nextId: 1}` used as the fallback of
`readData`. -/
def emptyDoc : Document := { tasks := [], nextId := 1 }

/-- `getAllTasks` (`taskController.js`): reads the document and returns
`data.tasks` with status 200; performs no write. -/
def getAllTasks (doc : Document) : HandlerResult :=
  { status := 200, body := .tasksList doc.tasks, doc := doc, wrote := false }

/-- `createTask` (`taskController.js`): rejects with 400 when
`!title || typeof completed !== "boolean"`; otherwise appends
`{id: data.nextId, title, completed}`, increments `nextId` by one,
writes, and answers 201 with the new task. -/
def createTask (body : CreateBody) (doc : Document) : HandlerResult :=
  match body.title, body.completed with
  | some t, .bool b =>
    if t = "" then
      { status := 400, body := .error "Données invalides", doc := doc, wrote := false }
    else
      let newTask : Task := { id := doc.nextId, title := t, completed := b }
      { status := 201, body := .task newTask,
        doc := { tasks := doc.tasks ++ [newTask], nextId := doc.nextId + 1 },
        wrote := true }
  | _, _ =>
    { status := 400, body := .error "Données invalides", doc := doc, wrote := false }

/-- Overwrite the fields present in the patch, keep the rest: the two
conditional assignments `if (title !== undefined) ...` and
`if (completed !== undefined) ...` of `updateTask`. -/
def applyPatch (body : UpdateBody) (t : Task) : Task :=
  { t with
    title := match body.title with | some s => s | none => t.title,
    completed := match body.completed with | some b => b | none => t.completed }

/-- `updateTask` (`taskController.js`): parses the `:id` parameter,
locates the task by `findIndex(task => task.id === id)`; answers 404
without writing when absent, otherwise patches the located task in
place, writes, and answers 200 with the patched task.  The second
`match` is unreachable: `jsFindIndex` always returns an in-bounds
index. -/
def updateTask (idParam : String) (body : UpdateBody) (doc : Document) : HandlerResult :=
  let id := parseIntJs idParam
  match jsFindIndex (fun t => jsStrictEqNum t.id id) doc.tasks with
  | none =>
    { status := 404, body := .error "Tâche non trouvée", doc := doc, wrote := false }
  | some i =>
    match doc.tasks[i]? with
    | none =>
      { status := 404, body := .error "Tâche non trouvée", doc := doc, wrote := false }
    | some t =>
      let t' := applyPatch body t
      { status := 200, body := .task t',
        doc := { doc with tasks := doc.tasks.set i t' }, wrote := true }

/-- `deleteTask` (`taskController.js`): parses the `:id` parameter,
locates the task by `findIndex`; answers 404 without writing when
absent, otherwise removes it with `splice(taskIndex, 1)`, writes, and
answers 200 with the confirmation message. -/
def deleteTask (idParam : String) (doc : Document) : HandlerResult :=
  let id := parseIntJs idParam
  match jsFindIndex (fun t => jsStrictEqNum t.id id) doc.tasks with
  | none =>
    { status := 404, body := .error "Tâche non trouvée", doc := doc, wrote := false }
  | some i =>
    { status := 200, body := .message "Task deleted successfully",
      doc := { doc with tasks := doc.tasks.eraseIdx i }, wrote := true }

/-! ## Store (`server/utils/storage.js`)

The backing file is modelled one level above raw bytes: a well-formed
JSON text is represented by the JSON value it denotes (the
`JSON.stringify`/`JSON.parse` pair on such values is the JavaScript
builtin, inverse by the language standard), while a missing file, a
read error, and bytes rejected by `JSON.parse` each get their own
constructor, all of which land in the same `catch` of `readData`. -/

/-- A JSON value. -/
inductive Json where
  | null
  | bool (b : Bool)
  | num (n : Int)
  | str (s : String)
  | arr (xs : List Json)
  | obj (fields : List (String × Json))

/-- The state of the backing file `data.json`. -/
inductive StoredFile where
  | absent
  | unreadable
  | malformed
  | content (j : Json)

/-- JSON object written for one task (key order of the object literal
in `createTask`). -/
def taskToJson (t : Task) : Json :=
  .obj [("id", .num t.id), ("title", .str t.title), ("completed", .bool t.completed)]

/-- JSON object written for the whole document. -/
def docToJson (d : Document) : Json :=
  .obj [("tasks", .arr (d.tasks.map taskToJson)), ("nextId", .num d.nextId)]

/-- Read one task back from its JSON object. -/
def jsonToTask : Json → Option Task
  | .obj fs =>
    match fs.lookup "id", fs.lookup "title", fs.lookup "completed" with
    | some (.num i), some (.str s), some (.bool b) => some { id := i, title := s, completed := b }
    | _, _, _ => none
  | _ => none

/-- Read a task array back from its JSON array. -/
def jsonToTasks : List Json → Option (List Task)
  | [] => some []
  | j :: rest =>
    match jsonToTask j, jsonToTasks rest with
    | some t, some ts => some (t :: ts)
    | _, _ => none

/-- Read a document back from its JSON object.  `readData` itself
returns the parsed value unvalidated; a parsed value of a shape other
than `DataStore` is outside the typed state space of this model. -/
def jsonToDoc : Json → Option Document
  | .obj fs =>
    match fs.lookup "tasks", fs.lookup "nextId" with
    | some (.arr xs), some (.num n) =>
      match jsonToTasks xs with
      | some ts => some { tasks := ts, nextId := n }
      | none => none
    | _, _ => none
  | _ => none

/-- `readData` (`storage.js`): `JSON.parse` of the file contents; the
`catch` branch — taken when `fs.readFile` rejects (file absent or
unreadable) or `JSON.parse` throws — returns `{tasks: [], nextId: 1}`.
The function is total: no failure escapes to the caller. -/
def readData : StoredFile → Document
  | .content j => (jsonToDoc j).getD emptyDoc
  | _ => emptyDoc

/-- `writeData` (`storage.js`): overwrites the file with
`JSON.stringify(data, null, 2)` — represented by the JSON value of the
document; the previous file state is fully replaced. -/
def writeData (data : Document) : StoredFile :=
  .content (docToJson data)

/-! ## Operation sequences (for the id-monotonicity invariant) -/

/-- One API call against the document: the three mutating endpoints of
`routes/tasks.js`, each carrying the raw request pieces its handler
reads. -/
inductive Op where
  | create (body : CreateBody)
  | update (idParam : String) (body : UpdateBody)
  | delete (idParam : String)
deriving DecidableEq

/-- Dispatch one call to its controller. -/
def applyOp : Op → Document → HandlerResult
  | .create body, doc => createTask body doc
  | .update p body, doc => updateTask p body doc
  | .delete p, doc => deleteTask p doc

/-- The ids assigned by one call: a successful `createTask` responds
with the freshly created task; no other call assigns an id. -/
def createdIds (op : Op) (r : HandlerResult) : List Int :=
  match op, r.body with
  | .create _, .task t => [t.id]
  | _, _ => []

/-- Run a sequence of calls from a starting document, collecting the
ids assigned to new tasks in order, and the final document. -/
def runOps : List Op → Document → List Int × Document
  | [], doc => ([], doc)
  | op :: rest, doc =>
    (createdIds op (applyOp op doc) ++ (runOps rest (applyOp op doc).doc).1,
     (runOps rest (applyOp op doc).doc).2)

/-! ## Helper lemmas -/

theorem jsFindIndex_eq_none {α : Type} {p : α → Bool} {l : List α}
    (h : ∀ a ∈ l, p a = false) : jsFindIndex p l = none := by
  induction l with
  | nil => rfl
  | cons a l ih =>
    have ha : p a = false := h a (List.mem_cons_self a l)
    have hl : jsFindIndex p l = none := ih fun x hx => h x (List.mem_cons_of_mem a hx)
    simp [jsFindIndex, ha, hl]

theorem jsFindIndex_some {α : Type} {p : α → Bool} {l : List α} {i : Nat}
    (h : jsFindIndex p l = some i) : ∃ a, l[i]? = some a ∧ p a = true := by
  induction l generalizing i with
  | nil => simp [jsFindIndex] at h
  | cons a l ih =>
    cases ha : p a with
    | true =>
      simp [jsFindIndex, ha] at h
      exact h ▸ ⟨a, by simp, ha⟩
    | false =>
      simp only [jsFindIndex, ha, Bool.false_eq_true, if_false] at h
      cases hf : jsFindIndex p l with
      | none => rw [hf] at h; simp at h
      | some j =>
        rw [hf] at h
        simp only [Option.map_some'] at h
        obtain ⟨b, hb, hpb⟩ := ih hf
        obtain rfl : j + 1 = i := Option.some.inj h
        exact ⟨b, by simpa using hb, hpb⟩

theorem jsFindIndex_first_match {α : Type} {p : α → Bool} {l₁ l₂ : List α} {t : α}
    (h₁ : ∀ a ∈ l₁, p a = false) (ht : p t = true) :
    jsFindIndex p (l₁ ++ t :: l₂) = some l₁.length := by
  induction l₁ with
  | nil => simp [jsFindIndex, ht]
  | cons a l ih =>
    have ha : p a = false := h₁ a (List.mem_cons_self a l)
    have hl := ih fun x hx => h₁ x (List.mem_cons_of_mem a hx)
    simp [jsFindIndex, ha, hl]

theorem eraseIdx_append_length {α : Type} (l₁ l₂ : List α) (t : α) :
    (l₁ ++ t :: l₂).eraseIdx l₁.length = l₁ ++ l₂ := by
  induction l₁ with
  | nil => rfl
  | cons a l ih => simpa [List.eraseIdx] using ih

theorem getElem?_set_self {α : Type} (l : List α) (i : Nat) (a b : α)
    (h : l[i]? = some b) : (l.set i a)[i]? = some a := by
  induction l generalizing i with
  | nil => simp at h
  | cons x l ih =>
    cases i with
    | zero => simp [List.set]
    | succ j => simpa [List.set] using ih j (by simpa using h)

theorem getElem?_set_of_ne {α : Type} (l : List α) (i j : Nat) (a : α)
    (h : j ≠ i) : (l.set i a)[j]? = l[j]? := by
  induction l generalizing i j with
  | nil => rfl
  | cons x l ih =>
    cases i with
    | zero =>
      cases j with
      | zero => exact absurd rfl h
      | succ k => simp [List.set]
    | succ i' =>
      cases j with
      | zero => simp [List.set]
      | succ k => simpa [List.set] using ih i' k (fun hk => h (by rw [hk]))

theorem updateTask_doc_nextId (p : String) (b : UpdateBody) (d : Document) :
    (updateTask p b d).doc.nextId = d.nextId := by
  unfold updateTask
  cases hf : jsFindIndex (fun t => jsStrictEqNum t.id (parseIntJs p)) d.tasks with
  | none => simp [hf]
  | some i =>
    cases hg : d.tasks[i]? with
    | none => simp [hf, hg]
    | some t => simp [hf, hg]

theorem deleteTask_doc_nextId (p : String) (d : Document) :
    (deleteTask p d).doc.nextId = d.nextId := by
  unfold deleteTask
  cases hf : jsFindIndex (fun t => jsStrictEqNum t.id (parseIntJs p)) d.tasks with
  | none => simp [hf]
  | some i => simp [hf]

theorem createTask_assigned (b : CreateBody) (doc : Document) (t : Task)
    (h : (createTask b doc).body = .task t) :
    t.id = doc.nextId ∧ (createTask b doc).doc.nextId = doc.nextId + 1 := by
  unfold createTask at h ⊢
  cases hT : b.title with
  | none => rw [hT] at h; cases hc : b.completed <;> rw [hc] at h <;> simp at h
  | some s =>
    rw [hT] at h
    cases hc : b.completed with
    | undef => rw [hc] at h; simp at h
    | str s2 => rw [hc] at h; simp at h
    | num n => rw [hc] at h; simp at h
    | bool bb =>
      rw [hc] at h
      by_cases hs : s = ""
      · simp [hs] at h
      · simp only [hs, if_false] at h
        injection h with h2
        subst h2
        simp [hs]

theorem createTask_nextId_mono (b : CreateBody) (doc : Document) :
    doc.nextId ≤ (createTask b doc).doc.nextId := by
  unfold createTask
  cases b.title with
  | none => cases b.completed <;> simp
  | some s =>
    cases b.completed with
    | undef => simp
    | str s2 => simp
    | num n => simp
    | bool bb =>
      by_cases hs : s = ""
      · simp [hs]
      · simp only [hs, if_false]
        omega

theorem applyOp_nextId_mono (op : Op) (doc : Document) :
    doc.nextId ≤ (applyOp op doc).doc.nextId := by
  cases op with
  | create b => exact createTask_nextId_mono b doc
  | update p b => rw [applyOp, updateTask_doc_nextId]
  | delete p => rw [applyOp, deleteTask_doc_nextId]

theorem runOps_nextId_mono (ops : List Op) (doc : Document) :
    doc.nextId ≤ (runOps ops doc).2.nextId := by
  induction ops generalizing doc with
  | nil => simp [runOps]
  | cons op rest ih =>
    simp only [runOps]
    exact le_trans (applyOp_nextId_mono op doc) (ih (applyOp op doc).doc)

theorem mem_createdIds {op : Op} {doc : Document} {i : Int}
    (h : i ∈ createdIds op (applyOp op doc)) :
    i = doc.nextId ∧ (applyOp op doc).doc.nextId = doc.nextId + 1 := by
  cases op with
  | create b =>
    simp only [createdIds, applyOp] at h
    cases hb : (createTask b doc).body with
    | task t =>
      rw [hb] at h
      simp only [List.mem_singleton] at h
      subst h
      exact ⟨(createTask_assigned b doc t hb).1, (createTask_assigned b doc t hb).2⟩
    | tasksList ts => rw [hb] at h; simp at h
    | message s => rw [hb] at h; simp at h
    | error s => rw [hb] at h; simp at h
  | update p b => simp [createdIds] at h
  | delete p => simp [createdIds] at h

theorem runOps_ids_bounds (ops : List Op) (doc : Document) :
    ∀ i ∈ (runOps ops doc).1, doc.nextId ≤ i ∧ i < (runOps ops doc).2.nextId := by
  induction ops generalizing doc with
  | nil => simp [runOps]
  | cons op rest ih =>
    intro i hi
    simp only [runOps, List.mem_append] at hi
    cases hi with
    | inl h =>
      obtain ⟨rfl, hbump⟩ := mem_createdIds h
      refine ⟨le_refl _, ?_⟩
      have h1 : (applyOp op doc).doc.nextId ≤ (runOps rest (applyOp op doc).doc).2.nextId :=
        runOps_nextId_mono rest (applyOp op doc).doc
      simp only [runOps]
      omega
    | inr h =>
      obtain ⟨hlb, hub⟩ := ih (applyOp op doc).doc i h
      exact ⟨le_trans (applyOp_nextId_mono op doc) hlb, by simpa [runOps] using hub⟩

theorem runOps_ids_pairwise (ops : List Op) (doc : Document) :
    List.Pairwise (fun a b => a < b) (runOps ops doc).1 := by
  induction ops generalizing doc with
  | nil => simp [runOps]
  | cons op rest ih =>
    simp only [runOps]
    rw [List.pairwise_append]
    refine ⟨?_, ih (applyOp op doc).doc, ?_⟩
    · cases op with
      | create b =>
        simp only [createdIds, applyOp]
        cases (createTask b doc).body <;> simp
      | update p b => simp [createdIds]
      | delete p => simp [createdIds]
    · intro a ha b hb
      obtain ⟨rfl, hbump⟩ := mem_createdIds ha
      have hlb := (runOps_ids_bounds rest (applyOp op doc).doc b hb).1
      omega

theorem jsonToTask_taskToJson (t : Task) : jsonToTask (taskToJson t) = some t := by
  rfl

theorem jsonToTasks_map_taskToJson (ts : List Task) :
    jsonToTasks (ts.map taskToJson) = some ts := by
  induction ts with
  | nil => rfl
  | cons t ts ih => simp [jsonToTasks, jsonToTask_taskToJson, ih]

theorem jsonToDoc_docToJson (d : Document) : jsonToDoc (docToJson d) = some d := by
  have h := jsonToTasks_map_taskToJson d.tasks
  simp [jsonToDoc, docToJson, List.lookup, h]

/-! ## Concrete fixtures used by the witnesses -/

/-- A document holding a single task id 1. -/
def docA : Document :=
  { tasks := [{ id := 1, title := "A", completed := false }], nextId := 2 }

/-- A document holding a single task id 1 titled "X". -/
def docX : Document :=
  { tasks := [{ id := 1, title := "X", completed := false }], nextId := 2 }

/-- A patch that only sets `completed`. -/
def completedOnlyPatch : UpdateBody := { title := none, completed := some true, id := none }

/-- A patch that sets `title` and smuggles an `id` key in the body. -/
def idSmugglingPatch : UpdateBody := { title := some "Y", completed := none, id := some 99 }

/-- Three concrete API calls: create, delete the first task, create again. -/
def demoOps : List Op :=
  [.create { title := some "A", completed := .bool false },
   .delete "1",
   .create { title := some "B", completed := .bool true }]

/-- The `[A, B, C]` document of the delete property, ids 1, 2, 3. -/
def docABC : Document :=
  { tasks := [{ id := 1, title := "A", completed := false },
              { id := 2, title := "B", completed := false },
              { id := 3, title := "C", completed := true }],
    nextId := 4 }

/-! ## Claim theorems -/

/-- C1: over every sequence of create/update/delete calls, the ids
assigned to newly created tasks are strictly increasing — hence never
repeat, even when deletes intervene — and every assigned id stays
strictly below the final `nextId`; `deleteTask` never changes
`nextId`. -/
theorem assigned_ids_strictly_increasing (ops : List Op) (doc : Document) :
    List.Pairwise (fun a b => a < b) (runOps ops doc).1 ∧
    (∀ i ∈ (runOps ops doc).1, i < (runOps ops doc).2.nextId) ∧
    (∀ p d, (deleteTask p d).doc.nextId = d.nextId) :=
  ⟨runOps_ids_pairwise ops doc,
   fun i hi => (runOps_ids_bounds ops doc i hi).2,
   deleteTask_doc_nextId⟩

/-- Witness for C1 at a concrete run: create, delete, create from the
empty document; id 1 is assigned and is below the final `nextId`. -/
theorem assigned_ids_strictly_increasing_witness :
    List.Pairwise (fun a b => a < b) (runOps demoOps emptyDoc).1 ∧
    (1 : Int) < (runOps demoOps emptyDoc).2.nextId :=
  ⟨(assigned_ids_strictly_increasing demoOps emptyDoc).1,
   (assigned_ids_strictly_increasing demoOps emptyDoc).2.1 1 (by decide)⟩

/-- C2: when the document holds the requested task, an update whose
body omits a field leaves that field of the task exactly as it was:
omitting `title` preserves the title, omitting `completed` preserves
the completion flag; the patched task is both stored and returned. -/
theorem updateTask_preserves_omitted_fields (p : String) (body : UpdateBody)
    (doc : Document) (i : Nat) (old : Task)
    (hf : jsFindIndex (fun t => jsStrictEqNum t.id (parseIntJs p)) doc.tasks = some i)
    (hg : doc.tasks[i]? = some old) :
    ∃ t', (updateTask p body doc).status = 200 ∧
      (updateTask p body doc).body = .task t' ∧
      (updateTask p body doc).doc.tasks[i]? = some t' ∧
      (body.title = none → t'.title = old.title) ∧
      (body.completed = none → t'.completed = old.completed) := by
  have key : updateTask p body doc =
      { status := 200, body := .task (applyPatch body old),
        doc := { tasks := doc.tasks.set i (applyPatch body old), nextId := doc.nextId },
        wrote := true } := by
    unfold updateTask
    simp only [hf, hg]
  rw [key]
  exact ⟨applyPatch body old, rfl, rfl, getElem?_set_self _ i _ old hg,
    fun h => by simp [applyPatch, h], fun h => by simp [applyPatch, h]⟩

/-- Witness for C2: patching task 1 of `docX` with `{completed: true}`
only. -/
theorem updateTask_preserves_omitted_fields_witness :
    ∃ t', (updateTask "1" completedOnlyPatch docX).status = 200 ∧
      (updateTask "1" completedOnlyPatch docX).body = .task t' ∧
      (updateTask "1" completedOnlyPatch docX).doc.tasks[0]? = some t' ∧
      (completedOnlyPatch.title = none → t'.title = "X") ∧
      (completedOnlyPatch.completed = none → t'.completed = false) :=
  updateTask_preserves_omitted_fields "1" completedOnlyPatch docX 0
    { id := 1, title := "X", completed := false } (by decide) (by decide)

/-- C10: a successful update can only change the `title` and
`completed` of the matched task — its `id` survives even when the
request body carries an `id` key (the handler destructures only
`title` and `completed`, so the result is invariant in the body's `id`
field) — and every other task as well as `nextId` is unchanged. -/
theorem updateTask_frame (p : String) (body : UpdateBody) (doc : Document)
    (i : Nat) (old : Task)
    (hf : jsFindIndex (fun t => jsStrictEqNum t.id (parseIntJs p)) doc.tasks = some i)
    (hg : doc.tasks[i]? = some old) :
    (updateTask p body doc).status = 200 ∧
    (updateTask p body doc).doc.nextId = doc.nextId ∧
    (∃ t', (updateTask p body doc).doc.tasks[i]? = some t' ∧ t'.id = old.id) ∧
    (∀ j, j ≠ i → (updateTask p body doc).doc.tasks[j]? = doc.tasks[j]?) ∧
    (∀ k, updateTask p { body with id := k } doc = updateTask p body doc) := by
  have key : updateTask p body doc =
      { status := 200, body := .task (applyPatch body old),
        doc := { tasks := doc.tasks.set i (applyPatch body old), nextId := doc.nextId },
        wrote := true } := by
    unfold updateTask
    simp only [hf, hg]
  refine ⟨by rw [key], by rw [key], ?_, ?_, fun k => rfl⟩
  · rw [key]
    exact ⟨applyPatch body old, getElem?_set_self _ i _ old hg, by simp [applyPatch]⟩
  · intro j hj
    rw [key]
    exact getElem?_set_of_ne _ i j _ hj

/-- Witness for C10: the body carries `id: 99`; the stored task keeps
id 1 and the result ignores the body's `id` field. -/
theorem updateTask_frame_witness :
    (updateTask "1" idSmugglingPatch docX).status = 200 ∧
    (updateTask "1" idSmugglingPatch docX).doc.nextId = docX.nextId ∧
    (∃ t', (updateTask "1" idSmugglingPatch docX).doc.tasks[0]? = some t' ∧ t'.id = 1) ∧
    (∀ j, j ≠ 0 → (updateTask "1" idSmugglingPatch docX).doc.tasks[j]? = docX.tasks[j]?) ∧
    (∀ k, updateTask "1" { idSmugglingPatch with id := k } docX =
      updateTask "1" idSmugglingPatch docX) :=
  updateTask_frame "1" idSmugglingPatch docX 0
    { id := 1, title := "X", completed := false } (by decide) (by decide)

/-- C5: when no task carries the requested integer id, both
`updateTask` and `deleteTask` answer 404, perform no write, and leave
the document exactly as loaded. -/
theorem notFound_performs_no_save (p : String) (body : UpdateBody) (doc : Document)
    (n : Int) (hp : parseIntJs p = some n) (hno : ∀ t ∈ doc.tasks, t.id ≠ n) :
    (updateTask p body doc).status = 404 ∧ (updateTask p body doc).wrote = false ∧
    (updateTask p body doc).doc = doc ∧
    (deleteTask p doc).status = 404 ∧ (deleteTask p doc).wrote = false ∧
    (deleteTask p doc).doc = doc := by
  have hfalse : ∀ t ∈ doc.tasks, jsStrictEqNum t.id (parseIntJs p) = false := by
    intro t ht
    rw [hp]
    simp only [jsStrictEqNum]
    exact beq_eq_false_iff_ne.mpr (hno t ht)
  have hf := jsFindIndex_eq_none hfalse
  unfold updateTask deleteTask
  simp [hf]

/-- Witness for C5: id 999 against a document holding only id 1. -/
theorem notFound_performs_no_save_witness :
    (updateTask "999" completedOnlyPatch docA).status = 404 ∧
    (updateTask "999" completedOnlyPatch docA).wrote = false ∧
    (updateTask "999" completedOnlyPatch docA).doc = docA ∧
    (deleteTask "999" docA).status = 404 ∧ (deleteTask "999" docA).wrote = false ∧
    (deleteTask "999" docA).doc = docA :=
  notFound_performs_no_save "999" completedOnlyPatch docA 999 (by decide) (by decide)

/-- C9: whenever the `:id` parameter fails to match any stored task —
in particular for a non-numeric parameter, where `parseInt` yields
`NaN` and `task.id === NaN` is false for every task — both handlers
answer 404 with the generic error body, never 400 or 500, and write
nothing. -/
theorem unmatched_id_param_404 (p : String) (body : UpdateBody) (doc : Document)
    (h : ∀ t ∈ doc.tasks, jsStrictEqNum t.id (parseIntJs p) = false) :
    (updateTask p body doc).status = 404 ∧
    (updateTask p body doc).body = .error "Tâche non trouvée" ∧
    (updateTask p body doc).wrote = false ∧ (updateTask p body doc).doc = doc ∧
    (deleteTask p doc).status = 404 ∧
    (deleteTask p doc).body = .error "Tâche non trouvée" ∧
    (deleteTask p doc).wrote = false ∧ (deleteTask p doc).doc = doc := by
  have hf := jsFindIndex_eq_none h
  unfold updateTask deleteTask
  simp [hf]

/-- Witness for C9: the non-numeric parameter "abc" (`parseInt` gives
`NaN`) against a document holding task id 1. -/
theorem unmatched_id_param_404_witness :
    (updateTask "abc" completedOnlyPatch docA).status = 404 ∧
    (updateTask "abc" completedOnlyPatch docA).body = .error "Tâche non trouvée" ∧
    (updateTask "abc" completedOnlyPatch docA).wrote = false ∧
    (updateTask "abc" completedOnlyPatch docA).doc = docA ∧
    (deleteTask "abc" docA).status = 404 ∧
    (deleteTask "abc" docA).body = .error "Tâche non trouvée" ∧
    (deleteTask "abc" docA).wrote = false ∧ (deleteTask "abc" docA).doc = docA :=
  unmatched_id_param_404 "abc" completedOnlyPatch docA (by decide)

/-- C8: when exactly one task matches the requested id, `deleteTask`
removes exactly that entry, keeps every other task unchanged and in
its original relative order, leaves `nextId` alone, and writes. -/
theorem deleteTask_removes_exactly_one (p : String) (doc : Document)
    (l₁ l₂ : List Task) (t : Task)
    (hdoc : doc.tasks = l₁ ++ t :: l₂)
    (ht : jsStrictEqNum t.id (parseIntJs p) = true)
    (h₁ : ∀ a ∈ l₁, jsStrictEqNum a.id (parseIntJs p) = false)
    (_h₂ : ∀ a ∈ l₂, jsStrictEqNum a.id (parseIntJs p) = false) :
    (deleteTask p doc).status = 200 ∧
    (deleteTask p doc).doc.tasks = l₁ ++ l₂ ∧
    (deleteTask p doc).doc.nextId = doc.nextId ∧
    (deleteTask p doc).wrote = true := by
  have hf : jsFindIndex (fun a => jsStrictEqNum a.id (parseIntJs p)) (l₁ ++ t :: l₂)
      = some l₁.length := jsFindIndex_first_match h₁ ht
  unfold deleteTask
  rw [hdoc]
  simp [hf, eraseIdx_append_length]

/-- Witness for C8: deleting id 2 from `[A, B, C]` (ids 1, 2, 3)
yields `[A, C]`. -/
theorem deleteTask_removes_exactly_one_witness :
    (deleteTask "2" docABC).status = 200 ∧
    (deleteTask "2" docABC).doc.tasks =
      [{ id := 1, title := "A", completed := false }] ++
      [{ id := 3, title := "C", completed := true }] ∧
    (deleteTask "2" docABC).doc.nextId = docABC.nextId ∧
    (deleteTask "2" docABC).wrote = true :=
  deleteTask_removes_exactly_one "2" docABC
    [{ id := 1, title := "A", completed := false }]
    [{ id := 3, title := "C", completed := true }]
    { id := 2, title := "B", completed := false }
    (by decide) (by decide) (by decide) (by decide)

/-- C6: persisting a document and loading it back returns a document
equal to the one saved — the object written by `writeData` reads back
field-for-field through `readData`. -/
theorem save_load_roundtrip (d : Document) : readData (writeData d) = d := by
  simp [readData, writeData, jsonToDoc_docToJson]

/-- C7: a missing backing file, a read failure, and contents that
`JSON.parse` rejects all make `readData` return the empty document
`{tasks: [], nextId: 1}`; the function is total, so no read failure
ever reaches the caller as an error. -/
theorem load_failure_yields_empty_document :
    readData .absent = { tasks := [], nextId := 1 } ∧
    readData .unreadable = { tasks := [], nextId := 1 } ∧
    readData .malformed = { tasks := [], nextId := 1 } :=
  ⟨rfl, rfl, rfl⟩

/-- A 201-character title. -/
def title201 : String := String.mk (List.replicate 201 'a')

/-- Modelled from the spec: the length of a title after trimming
leading and trailing whitespace — the quantity the validation rule
`length in [1, 200] after trimming` is stated over. -/
def trimmedLength (s : String) : Nat :=
  ((s.toList.dropWhile isJsSpace).reverse.dropWhile isJsSpace).length

set_option maxRecDepth 8192 in
/-- C3 counterexample: the claimed boundary rule fails on the code.
A whitespace-only title (trimmed length 0) is accepted with 201, and
so is a title of trimmed length 201: `createTask` checks only
`!title || typeof completed !== "boolean"` and the route mounts no
trimming or length validation. -/
theorem create_title_boundary_counterexample :
    trimmedLength " " = 0 ∧
    (createTask { title := some " ", completed := .bool false } emptyDoc).status = 201 ∧
    trimmedLength title201 = 201 ∧
    (createTask { title := some title201, completed := .bool false } emptyDoc).status = 201 := by
  refine ⟨by decide, by decide, by decide, by decide⟩

/-- C3 (amended): `createTask` rejects with 400 exactly when the title
is absent or the empty string, or `completed` is not a boolean; every
other request is answered 201 — titles of trimmed length 1 and 200 are
accepted, but so are whitespace-only titles and titles of length 201,
since no trimming and no upper length bound is applied. -/
theorem createTask_validation_characterization (body : CreateBody) (doc : Document) :
    ((createTask body doc).status = 400 ↔
      body.title = none ∨ body.title = some "" ∨ body.completed.isBool = false) ∧
    ((createTask body doc).status = 400 ∨ (createTask body doc).status = 201) := by
  unfold createTask
  cases hT : body.title with
  | none => cases hc : body.completed <;> simp [JsVal.isBool]
  | some s =>
    cases hc : body.completed with
    | undef => simp [JsVal.isBool]
    | str s2 => simp [JsVal.isBool]
    | num n => simp [JsVal.isBool]
    | bool bb => by_cases hs : s = "" <;> simp [JsVal.isBool, hs]

/-- Witness for C3 (amended) at the empty-string title. -/
theorem createTask_validation_characterization_witness :
    ((createTask { title := some "", completed := .bool true } emptyDoc).status = 400 ↔
      ({ title := some "", completed := .bool true } : CreateBody).title = none ∨
      ({ title := some "", completed := .bool true } : CreateBody).title = some "" ∨
      ({ title := some "", completed := .bool true } : CreateBody).completed.isBool = false) ∧
    ((createTask { title := some "", completed := .bool true } emptyDoc).status = 400 ∨
     (createTask { title := some "", completed := .bool true } emptyDoc).status = 201) :=
  createTask_validation_characterization { title := some "", completed := .bool true } emptyDoc

/-- C4 counterexample: an update whose body carries an invalid present
field is not rejected: patching task 1 of `docA` with an empty title
answers 200, writes, and persists the empty title. -/
theorem update_validation_counterexample :
    (updateTask "1" { title := some "", completed := none, id := none } docA).status = 200 ∧
    (updateTask "1" { title := some "", completed := none, id := none } docA).wrote = true ∧
    (updateTask "1" { title := some "", completed := none, id := none } docA).doc =
      { tasks := [{ id := 1, title := "", completed := false }], nextId := 2 } := by
  decide

/-- C4 (amended): the update route mounts no validation middleware, so
`updateTask` never answers 400: present fields are applied verbatim —
an empty title included — and the only outcomes are 200 (task found,
patched, persisted) and 404 (no such id). -/
theorem updateTask_never_400 (p : String) (body : UpdateBody) (doc : Document) :
    (updateTask p body doc).status = 200 ∨ (updateTask p body doc).status = 404 := by
  unfold updateTask
  cases hf : jsFindIndex (fun t => jsStrictEqNum t.id (parseIntJs p)) doc.tasks with
  | none => simp [hf]
  | some i =>
    cases hg : doc.tasks[i]? with
    | none => simp [hf, hg]
    | some t => simp [hf, hg]

end TodoApp
